import Mathlib

/-!
Verification of the go-pkginstall secure path-transformation, validation and
symlink engine.  The definitions below are a shallow embedding of the Go
sources (pkg/security/pathmapper.go, pkg/security/validator.go,
pkg/security/scriptvalidator.go, pkg/symlink/processor.go,
pkg/debian/builder.go).  Filesystem effects (os.Lstat, os.Symlink, os.MkdirAll)
are modelled by explicit oracles; logging branches that do not affect any
returned value are noted in comments and dropped.
-/

deriving instance DecidableEq for Except

namespace PkgInstall

/-- Go strings.Split for a single-character separator: the list of segments
between occurrences of the separator, including empty segments. -/
def splitOnCharL (sep : Char) : List Char → List (List Char)
  | [] => [[]]
  | c :: rest =>
    let r := splitOnCharL sep rest
    if c = sep then [] :: r
    else
      match r with
      | h :: t => (c :: h) :: t
      | [] => [[c]]

/-- Go strings.Contains: sub occurs as a contiguous substring of the haystack. -/
def containsSubL (sub : List Char) : List Char → Bool
  | [] => sub.isEmpty
  | c :: rest => sub.isPrefixOf (c :: rest) || containsSubL sub rest

/-- Go strings.Contains on String values. -/
def goContains (s sub : String) : Bool := containsSubL sub.data s.data

/-- Go strings.HasPrefix on String values. -/
def goHasPref (s pre : String) : Bool := pre.data.isPrefixOf s.data

/-- Whitespace recognised by Go unicode.IsSpace restricted to ASCII (space,
tab, newline, vertical tab, form feed, carriage return); the inputs handled
by this development are ASCII or use non-space unicode characters. -/
def goSpace (c : Char) : Bool :=
  c = ' ' || c = '\t' || c = '\n' || c = '\r' || c = Char.ofNat 11 || c = Char.ofNat 12

/-- Go strings.TrimSpace on the character list. -/
def trimL (s : List Char) : List Char :=
  ((s.dropWhile goSpace).reverse.dropWhile goSpace).reverse

/-- Byte length of one character under UTF-8, as counted by Go len(string). -/
def charUtf8Len (c : Char) : Nat :=
  if c.val < 0x80 then 1
  else if c.val < 0x800 then 2
  else if c.val < 0x10000 then 3
  else 4

/-- Go len(path): number of UTF-8 bytes. -/
def goLen (s : String) : Nat := (s.data.map charUtf8Len).sum

/-- Joins path segments with single slashes (helper for clean). -/
def joinSlash : List (List Char) → List Char
  | [] => []
  | [s] => s
  | s :: rest => s ++ '/' :: joinSlash rest

/-- Segment processing of Go path/filepath.Clean: empty and dot segments are
dropped, a dot-dot segment pops the previous real segment, cannot escape the
root of a rooted path, and is kept at the front of a relative path. -/
def cleanStack (rooted : Bool) : List (List Char) → List (List Char) → List (List Char)
  | out, [] => out.reverse
  | out, seg :: rest =>
    if seg = [] || seg = ['.'] then cleanStack rooted out rest
    else if seg = ['.', '.'] then
      match out with
      | top :: outRest =>
        if top = ['.', '.'] then cleanStack rooted (seg :: top :: outRest) rest
        else cleanStack rooted outRest rest
      | [] => if rooted then cleanStack rooted [] rest else cleanStack rooted [seg] rest
    else cleanStack rooted (seg :: out) rest

/-- Go path/filepath.Clean on a character list. -/
def cleanL (s : List Char) : List Char :=
  if s = [] then ['.']
  else
    let rooted := s.head? = some '/'
    let segs := cleanStack rooted [] (splitOnCharL '/' s)
    if rooted then '/' :: joinSlash segs
    else if segs = [] then ['.']
    else joinSlash segs

/-- Go path/filepath.Clean. -/
def clean (s : String) : String := ⟨cleanL s.data⟩

/-- Go path/filepath.IsAbs on linux: the path begins with a slash. -/
def isAbsPath (p : String) : Bool := p.data.head? = some '/'

/-- Go strings.Replace(s, old, new, 1): replace the first occurrence of old. -/
def replaceFirstL (old new : List Char) : List Char → List Char
  | [] => if old = [] then new else []
  | c :: rest =>
    if old.isPrefixOf (c :: rest) then new ++ (c :: rest).drop old.length
    else c :: replaceFirstL old new rest

/-- Go strings.Replace with n = 1 on String values. -/
def replaceFirst (s old new : String) : String := ⟨replaceFirstL old.data new.data s.data⟩

/-- PathMapper (pkg/security/pathmapper.go).  The systemDirs Go map is
embedded as an association list; Go iterates the map in unspecified order,
and the default table below is pairwise non-overlapping under the matching
test of TransformPath, so first-match over this list is order-independent
for the default configuration.  Logging state (verbose, logFunc) never
affects a returned value and is omitted. -/
structure PathMapper where
  systemDirs : List (String × String)
  symlinkDirs : List String
  baseTransformDir : String

/-- NewPathMapper() with no options: the default mapping table, symlink
directory list and secure root of pathmapper.go. -/
def defaultPathMapper : PathMapper :=
  { systemDirs :=
      [("/bin", "/opt/bin"), ("/etc", "/opt/etc"), ("/var", "/opt/var"),
       ("/usr", "/opt/usr"), ("/lib", "/opt/lib"), ("/lib64", "/opt/lib64"),
       ("/sbin", "/opt/sbin"), ("/home", "/opt/home"), ("/share", "/opt/share"),
       ("/include", "/opt/include")]
    symlinkDirs :=
      ["/etc/systemd/system", "/etc/init.d", "/usr/share/applications",
       "/usr/share/icons", "/usr/share/man", "/usr/local/bin", "/usr/bin", "/bin"]
    baseTransformDir := "/opt" }

/-- The membership test TransformPath and IsSystemPath apply to a mapping
entry: normPath == sysDir or normPath begins with sysDir followed by a
slash. -/
def matchesSysDir (sysDir normPath : String) : Bool :=
  normPath == sysDir || goHasPref normPath (sysDir ++ "/")

/-- PathMapper.IsTransformedPath: empty paths are not transformed; otherwise
the cleaned path is tested with a plain string-prefix comparison against the
base transform directory (note: not a directory-boundary test). -/
def IsTransformedPath (pm : PathMapper) (path : String) : Bool :=
  if path = "" then false
  else goHasPref (clean path) pm.baseTransformDir

/-- PathMapper.shouldCreateSymlink: the path equals a configured symlink
directory or lies strictly below one. -/
def shouldCreateSymlink (pm : PathMapper) (path : String) : Bool :=
  pm.symlinkDirs.any (fun dir => path == dir || goHasPref path (dir ++ "/"))

/-- PathMapper.TransformPath: returns the transformed path and whether a
symlink should be created, or an error when no rule applies.  The Go map
loop is embedded as find? over the association list (see PathMapper). -/
def TransformPath (pm : PathMapper) (path : String) : Except String (String × Bool) :=
  if path = "" then .error "cannot transform empty path"
  else
    let normPath := clean path
    if IsTransformedPath pm normPath then .ok (normPath, false)
    else
      match pm.systemDirs.find? (fun m => matchesSysDir m.1 normPath) with
      | some (sysDir, secureDir) =>
        .ok (replaceFirst normPath sysDir secureDir, shouldCreateSymlink pm normPath)
      | none => .error ("no transformation rule matched for path: " ++ path)

/-- SecurityPolicy (pkg/security/validator.go). -/
structure SecurityPolicy where
  ForbiddenPaths : List String
  RestrictedPaths : List String
  AllowedExtensions : List String
  MaxPathLength : Nat
  DisallowDotDot : Bool

/-- DefaultSecurityPolicy() of validator.go. -/
def DefaultSecurityPolicy : SecurityPolicy :=
  { ForbiddenPaths := ["/bin", "/sbin", "/usr/bin", "/usr/sbin", "/boot", "/proc", "/sys", "/dev"]
    RestrictedPaths := ["/etc/passwd", "/etc/shadow", "/etc/sudoers", "/etc/ssh", "/etc/ssl/private"]
    AllowedExtensions :=
      [".txt", ".conf", ".service", ".socket", ".target", ".sh", ".xml", ".json",
       ".yml", ".yaml", ".desktop", ".png", ".svg", ".jpg", ".jpeg", ".gif",
       ".md", ".html", ".css", ".js"]
    MaxPathLength := 4096
    DisallowDotDot := true }

/-- Validator (validator.go); logging configuration is omitted because the
log function never changes a returned value. -/
structure Validator where
  policy : SecurityPolicy
  transformedDir : String

/-- NewValidator() with the default policy and transformed root, which is
also the configuration the Builder constructs (WithTransformedDir "/opt"). -/
def defaultValidator : Validator :=
  { policy := DefaultSecurityPolicy, transformedDir := "/opt" }

/-- Validator.ValidatePath.  Returns some message exactly when the Go method
returns a non-nil error.  The restricted-path scan, the transformed-directory
shortcut and the extension scan of the source only log or return nil, so
after the forbidden-path check the method always succeeds. -/
def ValidatePath (v : Validator) (path : String) : Option String :=
  if path = "" then some "path cannot be empty"
  else if !isAbsPath path then some "path must be absolute"
  else if goLen path > v.policy.MaxPathLength then
    some "path exceeds maximum length"
  else
    let cleanPath := clean path
    if cleanPath ≠ path && v.policy.DisallowDotDot && goContains path ".." then
      some ("path contains forbidden dot-dot sequences: " ++ path)
    else if v.policy.ForbiddenPaths.any
        (fun f => cleanPath == f || goHasPref cleanPath (f ++ "/")) then
      some ("path access forbidden: " ++ path)
    else none

/-- The encodedDotDot catalogue of Validator.ValidatePathTraversal. -/
def encodedDotDot : List String :=
  ["%2e%2e", "%2E%2E", "%252e%252e", "%252E%252E", "%2e.", ".%2e", "%2e%2e%2f",
   "%2E%2E%2F", "..%2f", "..%2F", ".%2f.", "%2e/", "/%2e%2e",
   "%c0%ae%c0%ae", "%c0%ae.", ".%c0%ae"]

/-- The unicodeDotDot catalogue of Validator.ValidatePathTraversal; the last
two entries are literal backslash-u sequences in the Go source (the
backslash is escaped there), not unicode characters. -/
def unicodeDotDot : List String :=
  ["..\\", "\\..\\", "\\../", "/..\\", "．．/", "..／", "．．／", "..\\u2215", "..\\u2044"]

/-- Validator.ValidatePathTraversal.  The basic dot-dot scan is performed on
the cleaned path; the encoded, unicode, doubled-slash and null-byte scans run
on the raw path.  The shell-metacharacter scan at the end only logs a
warning and never fails. -/
def ValidatePathTraversal (_v : Validator) (path : String) : Option String :=
  if path = "" then some "path cannot be empty"
  else
    let normalizedPath := clean path
    if goContains normalizedPath ".." &&
        ((splitOnCharL '/' normalizedPath.data).enum.any
          (fun p => p.2 = ['.', '.'] && p.1 > 0)) then
      some "path traversal detected: contains dot-dot patterns"
    else if encodedDotDot.any (fun enc => goContains path enc) then
      some "encoded path traversal attempt detected"
    else if unicodeDotDot.any (fun u => goContains path u) then
      some "unicode path traversal attempt detected"
    else if goContains path "//" &&
        (((splitOnCharL '/' path.data).filter (fun seg => seg ≠ [])).any
          (fun seg => seg = ['.', '.'])) then
      some "path traversal detected with multiple slashes"
    else if goContains path (String.mk [Char.ofNat 0]) then
      some "null byte detected in path"
    else none

/-- Validator.ValidateSymlink.  The os.Lstat existence probe of the target is
modelled by the fsExists oracle (true when an entry already exists at the
path). -/
def ValidateSymlink (v : Validator) (fsExists : String → Bool)
    (source target : String) : Option String :=
  match ValidatePath v source with
  | some e => some ("invalid symlink source: " ++ e)
  | none =>
    match ValidatePath v target with
    | some e => some ("invalid symlink target: " ++ e)
    | none =>
      if v.policy.ForbiddenPaths.any
          (fun f => target == f || goHasPref target (f ++ "/")) then
        some ("symlink target points to forbidden path: " ++ target)
      else if fsExists target then
        some ("symlink target already exists: " ++ target)
      else if goHasPref target source then
        some ("symlink would create a cycle: " ++ source ++ " -> " ++ target)
      else none

/-- Nondeterministic prefix matcher used to embed the Go regexp patterns of
scriptvalidator.go: applied to a suffix of a line it returns every possible
remainder after consuming a match of the pattern at that position. -/
def Pat : Type := List Char → List (List Char)

/-- Matches the empty pattern. -/
def pEps : Pat := fun s => [s]

/-- Matches a literal string. -/
def pLit (lit : String) : Pat :=
  fun s => if lit.data.isPrefixOf s then [s.drop lit.data.length] else []

/-- Matches one character satisfying the class predicate. -/
def pCharP (p : Char → Bool) : Pat :=
  fun s =>
    match s with
    | [] => []
    | c :: rest => if p c then [rest] else []

/-- Sequencing of two patterns. -/
def pSeq (a b : Pat) : Pat := fun s => (a s).flatMap b

/-- Alternation of two patterns. -/
def pAlt (a b : Pat) : Pat := fun s => a s ++ b s

/-- A pattern made optional, as by a question mark. -/
def pOpt (a : Pat) : Pat := fun s => s :: a s

/-- One or more characters of a class, as by a plus on a character class:
every way of consuming between one and the maximal run. -/
def pPlusP (p : Char → Bool) : List Char → List (List Char)
  | [] => []
  | c :: rest => if p c then rest :: pPlusP p rest else []

/-- Zero or more characters of a class, as by a star on a character class. -/
def pStarP (p : Char → Bool) : Pat := fun s => s :: pPlusP p s

/-- RE2 backslash-s: space, tab, newline, form feed, carriage return. -/
def reSpace (c : Char) : Bool :=
  c = ' ' || c = '\t' || c = '\n' || c = Char.ofNat 12 || c = '\r'

/-- RE2 dot: any character other than newline. -/
def reAny (c : Char) : Bool := c ≠ '\n'

/-- Unanchored search: does the pattern match starting at any position of the
line (Go regexp MatchString)? -/
def searchPat (p : Pat) : List Char → Bool
  | [] => !(p []).isEmpty
  | c :: rest => !(p (c :: rest)).isEmpty || searchPat p rest

/-- The double-quote character. -/
def dquoteChar : Char := Char.ofNat 34

/-- The single-quote character. -/
def squoteChar : Char := Char.ofNat 39

/-- The backtick character. -/
def btickChar : Char := Char.ofNat 96

/-- Dangerous pattern: rm with root paths. -/
def patRm : Pat :=
  pSeq (pLit "rm") (pSeq (pPlusP reSpace)
    (pSeq (pOpt (pSeq (pLit "-") (pSeq (pPlusP (fun c => c = 'r' || c = 'f'))
      (pPlusP reSpace)))) (pLit "/")))

/-- Dangerous pattern: chmod of root paths. -/
def patChmod : Pat :=
  pSeq (pLit "chmod") (pSeq (pPlusP reSpace)
    (pSeq (pOpt (pSeq (pPlusP (fun c => '0' ≤ c && c ≤ '7')) (pPlusP reSpace)))
      (pLit "/")))

/-- Dangerous pattern: chown of root paths. -/
def patChown : Pat :=
  pSeq (pLit "chown") (pSeq (pPlusP reSpace)
    (pSeq (pOpt (pSeq (pPlusP (fun c => c ≠ '/')) (pPlusP reSpace))) (pLit "/")))

/-- Dangerous pattern: piping wget to a shell. -/
def patWget : Pat :=
  pSeq (pLit "wget") (pSeq (pPlusP reSpace) (pSeq (pPlusP reAny)
    (pSeq (pPlusP reSpace) (pSeq (pLit "|") (pSeq (pPlusP reSpace)
      (pSeq (pOpt (pCharP (fun c => c = 'b' || c = 'a'))) (pLit "sh")))))))

/-- Dangerous pattern: piping curl to a shell. -/
def patCurl : Pat :=
  pSeq (pLit "curl") (pSeq (pPlusP reSpace) (pSeq (pPlusP reAny)
    (pSeq (pPlusP reSpace) (pSeq (pLit "|") (pSeq (pPlusP reSpace)
      (pSeq (pOpt (pCharP (fun c => c = 'b' || c = 'a'))) (pLit "sh")))))))

/-- Dangerous pattern: sudo usage. -/
def patSudo : Pat := pLit "sudo"

/-- Dangerous pattern: su to root. -/
def patSu : Pat :=
  pSeq (pLit "su") (pSeq (pPlusP reSpace)
    (pSeq (pOpt (pSeq (pLit "-") (pSeq (pPlusP (fun c => 'a' ≤ c && c ≤ 'z'))
      (pPlusP reSpace)))) (pLit "root")))

/-- Dangerous pattern: eval followed by a quote. -/
def patEvalQuote : Pat :=
  pSeq (pLit "eval") (pSeq (pPlusP reSpace)
    (pCharP (fun c => c = dquoteChar || c = squoteChar)))

/-- Dangerous pattern: exec with a file descriptor. -/
def patExecFd : Pat :=
  pSeq (pLit "exec") (pSeq (pPlusP reSpace) (pPlusP Char.isDigit))

/-- Dangerous pattern: setuid or setgid mention. -/
def patSetugid : Pat := pSeq (pLit "set") (pAlt (pLit "uid") (pLit "gid"))

/-- Dangerous pattern: writing to /etc. -/
def patWriteEtc : Pat := pSeq (pLit ">") (pSeq (pStarP reSpace) (pLit "/etc/"))

/-- Dangerous pattern: appending to /etc. -/
def patAppendEtc : Pat := pSeq (pLit ">>") (pSeq (pStarP reSpace) (pLit "/etc/"))

/-- Dangerous pattern: package installation via apt or apt-get. -/
def patApt : Pat :=
  pSeq (pLit "apt") (pSeq (pOpt (pLit "-get")) (pSeq (pPlusP reSpace)
    (pAlt (pLit "install") (pLit "remove"))))

/-- Dangerous pattern: dpkg installation. -/
def patDpkg : Pat :=
  pSeq (pLit "dpkg") (pSeq (pPlusP reSpace) (pAlt (pLit "-i") (pLit "--install")))

/-- Dangerous pattern: changing system alternatives. -/
def patUpdateAlt : Pat := pLit "update-alternatives"

/-- Dangerous pattern: init-script manipulation.  The dot in the Go regex
/etc/init.d/ is an unescaped regex any-character. -/
def patEtcInitd : Pat :=
  pSeq (pLit "/etc/init") (pSeq (pCharP reAny) (pLit "d/"))

/-- Dangerous pattern: systemd service manipulation. -/
def patSystemctl : Pat :=
  pSeq (pLit "systemctl") (pSeq (pPlusP reSpace)
    (pAlt (pLit "enable") (pAlt (pLit "disable") (pLit "mask"))))

/-- The dangerousPatterns catalogue of NewScriptValidator, in source order. -/
def dangerousPatternList : List Pat :=
  [patRm, patChmod, patChown, patWget, patCurl, patSudo, patSu, patEvalQuote,
   patExecFd, patSetugid, patWriteEtc, patAppendEtc, patApt, patDpkg,
   patUpdateAlt, patEtcInitd, patSystemctl]

/-- RE2 word character: ASCII letter, digit or underscore. -/
def isWordChar (c : Char) : Bool := c.isAlpha || c.isDigit || c = '_'

/-- Word-ness of an optional adjacent character; the ends of the line count
as non-word. -/
def isWordOpt : Option Char → Bool
  | none => false
  | some c => isWordChar c

/-- Core matcher of a command name compiled as a regex: each dot in the name
is an any-character (relevant to update-rc.d), every other character is a
literal. -/
def cmdCore (cs : List Char) : Pat :=
  cs.foldr (fun ch acc =>
    pSeq (if ch = '.' then pCharP reAny else pLit (String.mk [ch])) acc) pEps

/-- Search for a backslash-b bounded match of a command at any position,
tracking the character before the current position for the boundary test. -/
def wordSearchAux (first last : Char) (core : Pat) : Option Char → List Char → Bool
  | prev, [] =>
    (isWordChar first != isWordOpt prev) &&
      (core []).any (fun rest => isWordChar last != isWordOpt rest.head?)
  | prev, c :: rest =>
    ((isWordChar first != isWordOpt prev) &&
      (core (c :: rest)).any (fun r => isWordChar last != isWordOpt r.head?)) ||
    wordSearchAux first last core (some c) rest

/-- Go regexp MatchString of backslash-b cmd backslash-b against a line. -/
def wordBoundContains (cmd : String) (line : List Char) : Bool :=
  match cmd.data with
  | [] => false
  | c :: cs => wordSearchAux c (cs.getLastD c) (cmdCore (c :: cs)) none line

/-- The dangerousCommands table of NewScriptValidator (command, base risk);
the Go map iteration order is unspecified, and every per-line count below is
a sum over independent entries, hence order-independent. -/
def dangerousCommands : List (String × Nat) :=
  [("rm", 7), ("chmod", 6), ("chown", 6), ("wget", 5), ("curl", 5), ("dd", 8),
   ("mkfs", 9), ("mount", 7), ("umount", 5), ("apt", 6), ("apt-get", 6),
   ("dpkg", 5), ("sudo", 9), ("su", 9), ("init", 10), ("systemctl", 6),
   ("service", 6), ("useradd", 7), ("usermod", 7), ("groupadd", 6),
   ("sysctl", 8), ("iptables", 7), ("update-rc.d", 6)]

/-- The protectedPaths list of NewScriptValidator. -/
def protectedPaths : List String :=
  ["/bin", "/sbin", "/usr/bin", "/usr/sbin", "/lib", "/lib64", "/etc/passwd",
   "/etc/shadow", "/etc/sudoers", "/boot", "/dev", "/proc", "/sys",
   "/var/run", "/var/lock"]

/-- The shellInterpreters whitelist of NewScriptValidator. -/
def shellInterpreters : List String :=
  ["#!/bin/sh", "#!/bin/bash", "#!/usr/bin/env sh", "#!/usr/bin/env bash"]

/-- Characters allowed inside an extracted path token: the negated class of
the extractPaths regex excludes whitespace, semicolon, pipe, angle brackets
and both quote characters. -/
def tokChar (c : Char) : Bool :=
  !reSpace c && c ≠ ';' && c ≠ '|' && c ≠ '>' && c ≠ '<' &&
    c ≠ dquoteChar && c ≠ squoteChar

/-- Worker for extractPaths: scans the line left to right, tracking whether
the current position is preceded by start-of-line or whitespace; at such a
position a slash starts a token that extends over the maximal run of token
characters, and scanning resumes after it. -/
def extractAux (atBound : Bool) (s : List Char) : List (List Char) :=
  match s with
  | [] => []
  | c :: rest =>
    if atBound && c = '/' then
      (c :: rest.takeWhile tokChar) :: extractAux false (rest.dropWhile tokChar)
    else
      extractAux (reSpace c) rest
termination_by s.length
decreasing_by
  · have h : (rest.dropWhile tokChar).length ≤ rest.length := by
      induction rest with
      | nil => simp
      | cons a t ih =>
        by_cases hp : tokChar a
        · simp only [List.dropWhile, hp, List.length_cons]
          omega
        · simp [List.dropWhile, hp]
    simp only [List.length_cons]
    omega
  · simp

/-- extractPaths of scriptvalidator.go: all successive matches of the
path-shaped-token regex, each reported as the captured token. -/
def extractPaths (line : List Char) : List (List Char) := extractAux true line

/-- ScriptSecurityLevel of scriptvalidator.go. -/
inductive ScriptSecurityLevel
  | low
  | medium
  | high
deriving DecidableEq

/-- ScriptValidationResult of scriptvalidator.go, with the warning and error
lists abstracted to their lengths (every claim and every verdict rule of the
source depends only on len(Warnings), len(Errors), RiskLevel and Valid) and
the detail map omitted. -/
structure ScriptValidationResult where
  Valid : Bool
  WarningCount : Nat
  ErrorCount : Nat
  RiskLevel : Nat
deriving DecidableEq

/-- Per-line contribution of the dangerous-pattern loop: one warning and two
risk points per matching pattern. -/
def linePatternCount (line : List Char) : Nat :=
  (dangerousPatternList.filter (fun p => searchPat p line)).length

/-- Per-line contribution of the dangerous-command loop: for each matching
command one warning and baseRisk/3 risk, plus, for each protected path
contained in the line, one error and baseRisk/2 risk. -/
def lineCommandStats (line : List Char) : Nat × Nat × Nat :=
  dangerousCommands.foldl
    (fun acc cmdRisk =>
      if wordBoundContains cmdRisk.1 line then
        let pcount := (protectedPaths.filter
          (fun pp => containsSubL pp.data line)).length
        (acc.1 + 1, acc.2.1 + pcount, acc.2.2 + cmdRisk.2 / 3 + (cmdRisk.2 / 2) * pcount)
      else acc)
    (0, 0, 0)

/-- Per-line contribution of the path-extraction loop when a PathMapper was
supplied: tokens containing a dollar sign or backtick are skipped; a token
that cannot be transformed, or whose transformation requires a symlink, adds
one warning. -/
def lineMapperWarnings (pm : PathMapper) (line : List Char) : Nat :=
  (extractPaths line).foldl
    (fun acc tok =>
      if containsSubL ['$'] tok || containsSubL [btickChar] tok then acc
      else
        match TransformPath pm (String.mk tok) with
        | .error _ => acc + 1
        | .ok (_, true) => acc + 1
        | .ok (_, false) => acc)
    0

/-- The line scan of ValidateScript: starting from the shebang warning, fold
over the lines of the script, skipping blank and comment lines, and
accumulate (warnings, errors, risk) from the pattern, command and
path-extraction loops. -/
def scanScript (pmOpt : Option PathMapper) (content : String) : Nat × Nat × Nat :=
  let shebangWarn :=
    if shellInterpreters.any (fun i => goHasPref content i) then 0 else 1
  (splitOnCharL '\n' content.data).foldl
    (fun acc line =>
      let trimmed := trimL line
      if trimmed = [] || trimmed.head? = some '#' then acc
      else
        let pw := linePatternCount line
        let cstats := lineCommandStats line
        let mw :=
          match pmOpt with
          | none => 0
          | some pm => lineMapperWarnings pm line
        (acc.1 + pw + cstats.1 + mw, acc.2.1 + cstats.2.1,
         acc.2.2 + 2 * pw + cstats.2.2))
    (shebangWarn, 0, 0)

/-- The security-level switch at the end of ValidateScript: Valid is true on
entry and is set to false exactly when the level's condition holds. -/
def applyVerdict (level : ScriptSecurityLevel) (r : ScriptValidationResult) :
    ScriptValidationResult :=
  match level with
  | .low =>
    if r.ErrorCount > 3 ∨ r.RiskLevel > 8 then { r with Valid := false } else r
  | .medium =>
    if r.ErrorCount > 0 ∨ r.RiskLevel > 6 then { r with Valid := false } else r
  | .high =>
    if r.ErrorCount > 0 ∨ r.WarningCount > 3 ∨ r.RiskLevel > 4 then
      { r with Valid := false }
    else r

/-- ScriptValidator.ValidateScript.  A script whose trimmed content is empty
returns valid with a single warning; otherwise the line scan runs and the
security-level switch decides the verdict.  The scanner error branch of the
source is unreachable for in-memory strings, so the result is total. -/
def ValidateScript (pmOpt : Option PathMapper) (level : ScriptSecurityLevel)
    (_scriptName content : String) : ScriptValidationResult :=
  if trimL content.data = [] then
    { Valid := true, WarningCount := 1, ErrorCount := 0, RiskLevel := 0 }
  else
    let s := scanScript pmOpt content
    applyVerdict level
      { Valid := true, WarningCount := s.1, ErrorCount := s.2.1, RiskLevel := s.2.2 }

/-- SymlinkRequest (pkg/symlink/processor.go). -/
structure SymlinkRequest where
  Source : String
  Target : String
  Description : String
deriving DecidableEq

/-- SymlinkProcessor.QueueSymlink: validates both paths, validates the
symlink pair, rejects a duplicate target already queued, else appends.  The
state is the symlinkQueue list; an error leaves the caller's queue
untouched.  The mutex only guards the in-place mutation and has no
sequential effect. -/
def QueueSymlink (v : Validator) (fsExists : String → Bool)
    (queue : List SymlinkRequest) (request : SymlinkRequest) :
    Except String (List SymlinkRequest) :=
  match ValidatePath v request.Source with
  | some e => .error ("invalid source path " ++ request.Source ++ ": " ++ e)
  | none =>
    match ValidatePath v request.Target with
    | some e => .error ("invalid target path " ++ request.Target ++ ": " ++ e)
    | none =>
      match ValidateSymlink v fsExists request.Source request.Target with
      | some e => .error ("symlink validation failed: " ++ e)
      | none =>
        if queue.any (fun existing => existing.Target == request.Target) then
          .error ("duplicate symlink target: " ++ request.Target)
        else
          .ok (queue ++ [request])

/-- SymlinkProcessor.ProcessPath: transforms the original path to learn
whether a symlink is needed; when the caller supplied a transformed path it
is used as the symlink source, otherwise the freshly computed one is; the
original path is the target. -/
def ProcessPath (pm : PathMapper) (v : Validator) (fsExists : String → Bool)
    (queue : List SymlinkRequest) (originalPath transformedPath : String) :
    Except String (List SymlinkRequest) :=
  match TransformPath pm originalPath with
  | .error e => .error ("failed to transform path " ++ originalPath ++ ": " ++ e)
  | .ok (computed, needsSymlink) =>
    if needsSymlink then
      QueueSymlink v fsExists queue
        { Source := if transformedPath = "" then computed else transformedPath,
          Target := originalPath,
          Description := "Automatically detected during build" }
    else
      .ok queue

/-- One entry of the flush loop: in dry-run mode createSymlink only logs and
succeeds; otherwise the parent-directory creation and the SymlinkManager
call are modelled by the success oracle. -/
def createSymlinkStep (dryRun : Bool) (fsOk : SymlinkRequest → Bool)
    (r : SymlinkRequest) : Bool :=
  if dryRun then true else fsOk r

/-- SymlinkProcessor.ProcessQueuedSymlinks: an empty queue returns
immediately; otherwise every entry is attempted in order (a failure never
stops the loop), the queue is cleared unconditionally, and an aggregate
error carrying the failure count is returned when any entry failed.  The
value is (result, queue after the call). -/
def ProcessQueuedSymlinks (dryRun : Bool) (fsOk : SymlinkRequest → Bool)
    (queue : List SymlinkRequest) : Except String Unit × List SymlinkRequest :=
  if queue.isEmpty then (.ok (), queue)
  else
    let errs := queue.filter (fun r => !createSymlinkStep dryRun fsOk r)
    if errs.length > 0 then
      (.error ("failed to create " ++ toString errs.length ++ " symlinks"), [])
    else
      (.ok (), [])

/-- One operation on a SymlinkProcessor, carrying the filesystem oracles the
operation observes. -/
inductive SymOp
  | queueOp (fsExists : String → Bool) (request : SymlinkRequest)
  | processPathOp (fsExists : String → Bool) (originalPath transformedPath : String)
  | flushOp (dryRun : Bool) (fsOk : SymlinkRequest → Bool)

/-- Effect of one operation on the queue: a failed QueueSymlink or
ProcessPath leaves the queue unchanged (the Go methods return an error
before mutating it). -/
def applyOp (pm : PathMapper) (v : Validator)
    (queue : List SymlinkRequest) : SymOp → List SymlinkRequest
  | .queueOp fs req =>
    match QueueSymlink v fs queue req with
    | .ok q => q
    | .error _ => queue
  | .processPathOp fs orig transformed =>
    match ProcessPath pm v fs queue orig transformed with
    | .ok q => q
    | .error _ => queue
  | .flushOp dryRun fsOk => (ProcessQueuedSymlinks dryRun fsOk queue).2

/-- Pairwise distinctness of the queued targets. -/
def distinctTargets (queue : List SymlinkRequest) : Prop :=
  queue.Pairwise (fun a b => a.Target ≠ b.Target)

/-- Success test for an Except value. -/
def exceptIsOk {ε α : Type} : Except ε α → Bool
  | .ok _ => true
  | .error _ => false

/-- Builder.copyFiles permission normalization (builder.go): mode is taken
from the source entry; when permissions are not preserved it is overwritten
with 0644 and the subsequent execute-bit test reads the overwritten value. -/
def copyFileMode (preservePerms : Bool) (srcMode : Nat) : Nat :=
  let mode := srcMode
  if !preservePerms then
    let mode := 0o644
    if mode &&& 0o100 ≠ 0 then 0o755 else mode
  else
    mode

/-- Per-entry core of Builder.copyFiles for a non-excluded, non-root entry
with relative path relPath: the absolute system path is formed with
filepath.Join, transformation failure falls back to the untransformed path
(the source only logs a warning), and structural plus traversal validation
are the fatal steps.  On success the value is the staging-relative
destination the entry is copied to.  Symlink queuing (non-fatal) and the
actual I/O are outside this per-entry decision. -/
def copyFilesStep (pm : PathMapper) (v : Validator) (relPath : String) :
    Except String String :=
  let absPath := clean ("/" ++ relPath)
  let transformedPath :=
    match TransformPath pm absPath with
    | .ok pr => pr.1
    | .error _ => absPath
  match ValidatePath v transformedPath with
  | some e => .error ("path validation failed for " ++ transformedPath ++ ": " ++ e)
  | none =>
    match ValidatePathTraversal v transformedPath with
    | some e =>
      .error ("path traversal check failed for " ++ transformedPath ++ ": " ++ e)
    | none => .ok transformedPath

/-- The maintainer script names Builder.SetMaintainerScript accepts. -/
def validMaintainerScripts : List String := ["preinst", "postinst", "prerm", "postrm"]

/-- Builder.SetMaintainerScript: rejects unknown script names, then
validates the content with a Medium-level ScriptValidator configured with
the Builder's PathMapper; an invalid result is an error, a valid one stores
the script (modelled as success). -/
def SetMaintainerScript (pm : PathMapper) (scriptName content : String) :
    Except String Unit :=
  if !(validMaintainerScripts.any (fun n => n == scriptName)) then
    .error ("invalid maintainer script name: " ++ scriptName)
  else if (ValidateScript (some pm) .medium scriptName content).Valid then
    .ok ()
  else
    .error ("Script validation failed for " ++ scriptName)

/-- The postinst content Builder.createSymlinkScript generates from the
queued symlink requests. -/
def createSymlinkScriptContent (symlinks : List SymlinkRequest) : String :=
  "#!/bin/sh\n\n" ++
  "# This script was generated by go-pkginstall to create necessary symlinks\n\n" ++
  "set -e\n\n" ++
  String.join (symlinks.map (fun s =>
    "# " ++ s.Description ++ "\n" ++
    "mkdir -p $(dirname '" ++ s.Target ++ "')\n" ++
    "if [ ! -e '" ++ s.Target ++ "' ]; then\n" ++
    "    ln -sf '" ++ s.Source ++ "' '" ++ s.Target ++ "'\n" ++
    "else\n" ++
    "    echo \"Warning: File '" ++ s.Target ++ "' already exists, not creating symlink\"\n" ++
    "fi\n\n"))

/-- Builder.createSymlinkScript: nothing to do on an empty queue, otherwise
the generated content is submitted as the postinst maintainer script and
must pass its validation. -/
def createSymlinkScript (pm : PathMapper) (symlinks : List SymlinkRequest) :
    Except String Unit :=
  if symlinks.isEmpty then .ok ()
  else SetMaintainerScript pm "postinst" (createSymlinkScriptContent symlinks)

/-- A symlink request of the kind the walk queues for an entry under
/usr/share/applications: the quoted paths contain no dangerous-pattern or
dangerous-command substring. -/
def reqUsrShare : SymlinkRequest :=
  { Source := "/opt/usr/share/applications/myapp.desktop"
    Target := "/usr/share/applications/myapp.desktop"
    Description := "Automatically detected during build" }

/-- A symlink request of the kind the walk queues for an entry under
/etc/init.d: it passes enqueue-time validation, but every generated script
line quoting the target matches the /etc/init.d/ dangerous pattern and the
init dangerous command. -/
def reqInitd : SymlinkRequest :=
  { Source := "/opt/etc/init.d/myapp"
    Target := "/etc/init.d/myapp"
    Description := "Automatically detected during build" }

/-- A second request sharing the target of reqUsrShare (used for the
duplicate-enqueue scenarios). -/
def reqUsrShareDup : SymlinkRequest :=
  { Source := "/opt/usr/share/applications/other.desktop"
    Target := "/usr/share/applications/myapp.desktop"
    Description := "duplicate" }

/-- Any successful QueueSymlink call appends exactly the new request and
certifies that no already-queued request shares its target. -/
theorem queueSymlink_ok_shape {v : Validator} {fs : String → Bool}
    {q : List SymlinkRequest} {r : SymlinkRequest} {q' : List SymlinkRequest}
    (h : QueueSymlink v fs q r = .ok q') :
    q' = q ++ [r] ∧ ∀ e ∈ q, e.Target ≠ r.Target := by
  unfold QueueSymlink at h
  split at h
  · exact absurd h (by simp)
  split at h
  · exact absurd h (by simp)
  split at h
  · exact absurd h (by simp)
  split at h
  · exact absurd h (by simp)
  rename_i hdup
  refine ⟨by injection h with h; exact h.symm, ?_⟩
  intro e he hte
  exact hdup (List.any_eq_true.mpr ⟨e, he, by simp [hte]⟩)

/-- Each processor operation preserves pairwise distinctness of the queued
targets. -/
theorem distinctTargets_applyOp (pm : PathMapper) (v : Validator)
    (q : List SymlinkRequest) (op : SymOp) (hq : distinctTargets q) :
    distinctTargets (applyOp pm v q op) := by
  cases op with
  | queueOp fs req =>
    simp only [applyOp]
    split
    · rename_i q' hok
      obtain ⟨rfl, hnew⟩ := queueSymlink_ok_shape hok
      exact List.pairwise_append.mpr ⟨hq, List.pairwise_singleton _ _,
        by intro a ha b hb; simp at hb; subst hb; exact hnew a ha⟩
    · exact hq
  | processPathOp fs orig transformed =>
    simp only [applyOp]
    split
    · rename_i q' hok
      unfold ProcessPath at hok
      split at hok
      · exact absurd hok (by simp)
      split at hok
      · obtain ⟨rfl, hnew⟩ := queueSymlink_ok_shape hok
        exact List.pairwise_append.mpr ⟨hq, List.pairwise_singleton _ _,
          by intro a ha b hb; simp at hb; subst hb; exact hnew a ha⟩
      · injection hok with hok
        subst hok
        exact hq
    · exact hq
  | flushOp dryRun fsOk =>
    simp only [applyOp, ProcessQueuedSymlinks]
    split
    · exact hq
    · split
      · exact List.Pairwise.nil
      · exact List.Pairwise.nil

/-- Distinctness of the queued targets is an inductive invariant of any
operation sequence. -/
theorem distinctTargets_foldl (pm : PathMapper) (v : Validator)
    (ops : List SymOp) (q : List SymlinkRequest) (hq : distinctTargets q) :
    distinctTargets (ops.foldl (applyOp pm v) q) := by
  induction ops generalizing q with
  | nil => exact hq
  | cons op rest ih => exact ih _ (distinctTargets_applyOp pm v q op hq)

/-- C1: the claim states that TransformPath fails with NoRuleMatched on every
non-empty path neither under the secure root /opt nor under a configured
system prefix.  The code evaluated at the failing input /optional/bin: the
path is not under /opt in the directory sense (matchesSysDir is false) and
matches no system prefix, yet IsTransformedPath accepts it through a plain
string-prefix comparison and TransformPath succeeds, returning the path
unchanged — contradicting the claim and the repository's own
TestIsTransformedPath case, which expects false for /optional/bin. -/
theorem c1_transformPath_string_prefix_bug :
    TransformPath defaultPathMapper "/optional/bin" = .ok ("/optional/bin", false) ∧
    IsTransformedPath defaultPathMapper "/optional/bin" = true ∧
    matchesSysDir "/opt" "/optional/bin" = false ∧
    defaultPathMapper.systemDirs.all
      (fun m => !matchesSysDir m.1 "/optional/bin") = true := by
  decide

/-- C2 counterexample: the claim states that a transformation failure is
fatal for the file and that the entry is never copied at an untransformed
location.  For the walk entry some/random/path, TransformPath fails with
the no-rule error, yet the per-entry step succeeds and the entry is copied
at the untransformed absolute path /some/random/path. -/
theorem c2_transform_failure_not_fatal_cex :
    TransformPath defaultPathMapper "/some/random/path" =
      .error "no transformation rule matched for path: /some/random/path" ∧
    copyFilesStep defaultPathMapper defaultValidator "some/random/path" =
      .ok "/some/random/path" := by
  decide

/-- C2 amended: when TransformPath fails for an entry, the walk falls back
to the untransformed absolute path and copies the entry there, provided the
untransformed path passes structural and traversal validation; only those
validation failures are fatal. -/
theorem c2_transform_failure_fallback (pm : PathMapper) (v : Validator)
    (relPath : String)
    (ht : exceptIsOk (TransformPath pm (clean ("/" ++ relPath))) = false)
    (hv : ValidatePath v (clean ("/" ++ relPath)) = none)
    (htr : ValidatePathTraversal v (clean ("/" ++ relPath)) = none) :
    copyFilesStep pm v relPath = .ok (clean ("/" ++ relPath)) := by
  unfold copyFilesStep
  cases hT : TransformPath pm (clean ("/" ++ relPath)) with
  | ok pr =>
    rw [hT] at ht
    exact absurd ht (by simp [exceptIsOk])
  | error e =>
    simp only [hT, hv, htr]

/-- Witness for the amended C2 theorem at the concrete entry
some/random/path. -/
theorem c2_transform_failure_fallback_witness :
    copyFilesStep defaultPathMapper defaultValidator "some/random/path" =
      .ok (clean ("/" ++ "some/random/path")) :=
  c2_transform_failure_fallback defaultPathMapper defaultValidator
    "some/random/path" (by decide) (by decide) (by decide)

/-- C3: the claim states that with permission preservation disabled a source
file with an execute bit receives mode 0755.  In the code the execute-bit
test reads the variable that was just overwritten with 0644, so the copied
mode is 0644 for every source mode, including executable ones such as
0755 — contradicting the claim and the code's own comment. -/
theorem c3_mode_normalization_bug (srcMode : Nat) :
    copyFileMode false srcMode = 0o644 := by
  rfl

/-- C4: the claim states that ValidatePathTraversal rejects every path with
a literal dot-dot segment.  The code evaluated at the failing input
/opt/myapp/../../../etc/passwd: the path contains literal dot-dot segments,
yet the traversal check accepts it, because the dot-dot scan runs on the
cleaned path /etc/passwd where normalization has already resolved the
segments — contradicting the claim and the repository's own
TestValidatePathTraversalEnhanced basic-traversal case. -/
theorem c4_traversal_accepts_dotdot_bug :
    ((splitOnCharL '/' ("/opt/myapp/../../../etc/passwd").data).any
      (fun seg => seg = ['.', '.'])) = true ∧
    ValidatePathTraversal defaultValidator "/opt/myapp/../../../etc/passwd" = none := by
  decide

/-- C5 counterexample: the claim states that transforming
/usr/local/../bin/app yields the same path as transforming /bin/app.  In
fact normalization yields /usr/bin/app, which transforms to
/opt/usr/bin/app, while /bin/app transforms to /opt/bin/app; the two
results differ (both do require a symlink). -/
theorem c5_normalized_paths_differ_cex :
    TransformPath defaultPathMapper "/usr/local/../bin/app" =
      .ok ("/opt/usr/bin/app", true) ∧
    TransformPath defaultPathMapper "/bin/app" = .ok ("/opt/bin/app", true) ∧
    ("/opt/usr/bin/app" : String) ≠ "/opt/bin/app" := by
  decide

/-- C5 amended: transforming /usr/local/../bin/app succeeds and returns the
same transformed path as transforming its pre-normalized form /usr/bin/app,
namely /opt/usr/bin/app, and both calls report that a symlink is needed. -/
theorem c5_normalization_amended :
    TransformPath defaultPathMapper "/usr/local/../bin/app" =
      TransformPath defaultPathMapper "/usr/bin/app" ∧
    TransformPath defaultPathMapper "/usr/local/../bin/app" =
      .ok ("/opt/usr/bin/app", true) := by
  decide

/-- C6: after any sequence of QueueSymlink, ProcessPath and
ProcessQueuedSymlinks operations starting from the empty queue, no two
queued requests share a target; and a QueueSymlink call whose request
target equals an already-queued target never succeeds, leaving the caller's
queue unchanged. -/
theorem c6_queue_targets_unique (pm : PathMapper) (v : Validator) :
    (∀ ops : List SymOp, distinctTargets (ops.foldl (applyOp pm v) [])) ∧
    (∀ (fs : String → Bool) (q : List SymlinkRequest) (req : SymlinkRequest),
      (∃ e ∈ q, e.Target = req.Target) →
      exceptIsOk (QueueSymlink v fs q req) = false) := by
  constructor
  · intro ops
    exact distinctTargets_foldl pm v ops [] List.Pairwise.nil
  · intro fs q req hdup
    cases hres : QueueSymlink v fs q req with
    | error e => rfl
    | ok q' =>
      obtain ⟨e, he, hte⟩ := hdup
      exact absurd hte ((queueSymlink_ok_shape hres).2 e he)

/-- Witness for C6: a concrete operation sequence keeps targets distinct,
and enqueueing a request that duplicates the target of an already-queued
request fails. -/
theorem c6_queue_targets_unique_witness :
    distinctTargets ([SymOp.queueOp (fun _ => false) reqUsrShare].foldl
      (applyOp defaultPathMapper defaultValidator) []) ∧
    exceptIsOk (QueueSymlink defaultValidator (fun _ => false)
      [reqUsrShare] reqUsrShareDup) = false :=
  ⟨(c6_queue_targets_unique defaultPathMapper defaultValidator).1
      [SymOp.queueOp (fun _ => false) reqUsrShare],
   (c6_queue_targets_unique defaultPathMapper defaultValidator).2
      (fun _ => false) [reqUsrShare] reqUsrShareDup
      ⟨reqUsrShare, List.mem_singleton.mpr rfl, rfl⟩⟩

/-- C7: for every non-empty script, ValidateScript's verdict is exactly the
threshold rule of its security level: at Low invalid iff errors exceed 3 or
risk exceeds 8; at Medium invalid iff any error or risk exceeds 6; at High
invalid iff any error, warnings exceed 3, or risk exceeds 4. -/
theorem c7_verdict_thresholds (pmOpt : Option PathMapper) (name content : String)
    (h : trimL content.data ≠ []) :
    ((ValidateScript pmOpt .low name content).Valid = false ↔
      ((ValidateScript pmOpt .low name content).ErrorCount > 3 ∨
       (ValidateScript pmOpt .low name content).RiskLevel > 8)) ∧
    ((ValidateScript pmOpt .medium name content).Valid = false ↔
      ((ValidateScript pmOpt .medium name content).ErrorCount > 0 ∨
       (ValidateScript pmOpt .medium name content).RiskLevel > 6)) ∧
    ((ValidateScript pmOpt .high name content).Valid = false ↔
      ((ValidateScript pmOpt .high name content).ErrorCount > 0 ∨
       (ValidateScript pmOpt .high name content).WarningCount > 3 ∨
       (ValidateScript pmOpt .high name content).RiskLevel > 4)) := by
  simp only [ValidateScript, if_neg h]
  refine ⟨?_, ?_, ?_⟩ <;>
    · simp only [applyVerdict]
      split
      · simp_all
      · simp_all

/-- Witness for C7 at a concrete non-empty script under the Medium level. -/
theorem c7_verdict_thresholds_witness :
    ((ValidateScript none .medium "postinst" "echo hi").Valid = false ↔
      ((ValidateScript none .medium "postinst" "echo hi").ErrorCount > 0 ∨
       (ValidateScript none .medium "postinst" "echo hi").RiskLevel > 6)) :=
  (c7_verdict_thresholds none "postinst" "echo hi" (by decide)).2.1

/-- C8: validating the script with the rm -rf /etc/important and
chmod 777 /etc/passwd lines at the Medium security level yields at least
one error (the chmod line touches the protected path /etc/passwd) and an
invalid result. -/
theorem c8_dangerous_script_rejected :
    1 ≤ (ValidateScript none .medium "postinst"
      "#!/bin/sh\nrm -rf /etc/important\nchmod 777 /etc/passwd").ErrorCount ∧
    (ValidateScript none .medium "postinst"
      "#!/bin/sh\nrm -rf /etc/important\nchmod 777 /etc/passwd").Valid = false := by
  decide

/-- C9: ProcessQueuedSymlinks leaves the queue empty no matter the outcome,
counts failures over every entry of the single pass (a failed entry never
stops later attempts), succeeds exactly when the pass was a dry run or no
entry failed, and otherwise returns the aggregate error reporting the
number of failed entries. -/
theorem c9_flush_semantics (dryRun : Bool) (fsOk : SymlinkRequest → Bool)
    (q : List SymlinkRequest) :
    (ProcessQueuedSymlinks dryRun fsOk q).2 = [] ∧
    (ProcessQueuedSymlinks dryRun fsOk q).1 =
      (if dryRun = true ∨ (q.filter (fun r => !fsOk r)).length = 0 then .ok ()
       else .error ("failed to create " ++
         toString (q.filter (fun r => !fsOk r)).length ++ " symlinks")) := by
  by_cases hq : q.isEmpty
  · have hqe : q = [] := List.isEmpty_iff.mp hq
    subst hqe
    simp [ProcessQueuedSymlinks]
  · cases dryRun with
    | true =>
      unfold ProcessQueuedSymlinks
      rw [if_neg (by simpa using hq)]
      have hfil : q.filter (fun r => !createSymlinkStep true fsOk r) = [] := by
        simp [createSymlinkStep]
      rw [hfil]
      simp
    | false =>
      unfold ProcessQueuedSymlinks
      rw [if_neg (by simpa using hq)]
      have hstep : (fun r => !createSymlinkStep false fsOk r) = (fun r => !fsOk r) := by
        funext r
        simp [createSymlinkStep]
      rw [hstep]
      rcases Nat.eq_zero_or_pos (q.filter (fun r => !fsOk r)).length with hl | hl
      · rw [if_neg (by omega), if_pos (by simp [hl])]
        exact ⟨rfl, rfl⟩
      · rw [if_pos (by omega),
          if_neg (by simp only [Bool.false_eq_true, false_or]; omega)]
        exact ⟨rfl, rfl⟩

/-- C10 counterexample: the claim states that every non-empty queue of
requests that passed enqueue-time validation yields a generated postinst
that the Medium-level re-validation accepts.  The request targeting
/etc/init.d/myapp passes enqueue-time validation, yet its generated script
lines match the /etc/init.d/ dangerous pattern and the init dangerous
command, driving the risk score above 6, so the script is rejected and
createSymlinkScript fails. -/
theorem c10_initd_script_rejected_cex :
    QueueSymlink defaultValidator (fun _ => false) [] reqInitd = .ok [reqInitd] ∧
    (ValidateScript (some defaultPathMapper) .medium "postinst"
      (createSymlinkScriptContent [reqInitd])).RiskLevel > 6 ∧
    (ValidateScript (some defaultPathMapper) .medium "postinst"
      (createSymlinkScriptContent [reqInitd])).Valid = false ∧
    createSymlinkScript defaultPathMapper [reqInitd] =
      .error "Script validation failed for postinst" := by
  decide

/-- C10 amended: the generated script is accepted only when the queued
paths avoid the dangerous-pattern and dangerous-command substrings; for a
validated queue with a target under /usr/share/applications the generated
postinst produces zero errors and risk at most 6 and SetMaintainerScript
succeeds, while a validated queue targeting /etc/init.d is rejected (see
the counterexample). -/
theorem c10_generated_script_amended :
    QueueSymlink defaultValidator (fun _ => false) [] reqUsrShare = .ok [reqUsrShare] ∧
    (ValidateScript (some defaultPathMapper) .medium "postinst"
      (createSymlinkScriptContent [reqUsrShare])).ErrorCount = 0 ∧
    (ValidateScript (some defaultPathMapper) .medium "postinst"
      (createSymlinkScriptContent [reqUsrShare])).RiskLevel ≤ 6 ∧
    createSymlinkScript defaultPathMapper [reqUsrShare] = .ok () := by
  decide

end PkgInstall
